import Mathlib

/-!
Verification development for the chiadog event generation & filtering
pipeline.  The Python sources are shallowly embedded:

* `src/notifier/__init__.py` — `EventType` / `EventPriority` / `EventService`
  enums, the `Event` dataclass, and the abstract `Notifier` with its
  `should_ignore_event` / `should_allow_event` filtering predicates.
* `src/chia_log/parsers/wallet_added_coin_parser.py` — the wallet
  coin-received log parser (regex + per-fork amount scaling).
* `src/chia_log/api_handler.py` — the `POST /` ingestion endpoint.
* `src/chia_log/handlers/partial_handler.py` — the fan-out log handler.

Python's `time.time()` is modelled as an explicit `now : Nat` argument
(seconds); exceptions are modelled with `Except`; external libraries
(`json`, `re`, `json_logic`, `dateutil`) are modelled from the spec where
noted in the corresponding doc comments.
-/

namespace Chiadog

/-- Left brace character, written via its code point. -/
def lbrace : Char := Char.ofNat 123

/-- Right brace character, written via its code point. -/
def rbrace : Char := Char.ofNat 125

/-- Double-quote character. -/
def dquote : Char := Char.ofNat 34

/-- Backslash character. -/
def bslash : Char := Char.ofNat 92

/-- Single-quote character. -/
def squote : Char := Char.ofNat 39

/-- ASCII decimal digit test (Python's `[0-9]`). -/
def isDig (c : Char) : Bool := decide (48 ≤ c.toNat) && decide (c.toNat ≤ 57)

/-- ASCII lower-casing of one character.  Python's `str.lower` is
Unicode-aware; the ASCII fragment is all the enum names, rule fields and
patterns of this development use. -/
def asciiLowerChar (c : Char) : Char :=
  if 65 ≤ c.toNat ∧ c.toNat ≤ 90 then Char.ofNat (c.toNat + 32) else c

/-- ASCII upper-casing of one character (Python `str.upper`, ASCII
fragment). -/
def asciiUpperChar (c : Char) : Char :=
  if 97 ≤ c.toNat ∧ c.toNat ≤ 122 then Char.ofNat (c.toNat - 32) else c

/-- Python `s.lower()`. -/
def pyLower (s : String) : String := ⟨s.data.map asciiLowerChar⟩

/-- Python `s.upper()`. -/
def pyUpperStr (s : String) : String := ⟨s.data.map asciiUpperChar⟩

/-- Python `s.startswith(pre)`. -/
def pyStartsWith (s pre : String) : Bool := pre.data.isPrefixOf s.data

/-- Does `needle` occur as a contiguous sublist of `hay`? -/
def containsSub : List Char → List Char → Bool
  | [], needle => needle.isEmpty
  | c :: t, needle => needle.isPrefixOf (c :: t) || containsSub t needle

/-- Does `needle` occur as a substring of `hay`? -/
def strContains (hay needle : String) : Bool := containsSub hay.data needle.data

/-- `EventPriority` enum from `src/notifier/__init__.py` (values -1/0/1). -/
inductive EventPriority where
  | LOW
  | NORMAL
  | HIGH
deriving DecidableEq, Repr

/-- `EventType` enum from `src/notifier/__init__.py`. -/
inductive EventType where
  | KEEPALIVE
  | USER
  | DAILY_STATS
  | PLOTDECREASE
  | PLOTINCREASE
deriving DecidableEq, Repr

/-- `EventService` enum from `src/notifier/__init__.py`. -/
inductive EventService where
  | HARVESTER
  | FARMER
  | FULL_NODE
  | DAILY
  | WALLET
deriving DecidableEq, Repr

/-- Python `EventPriority.name`. -/
def EventPriority.name : EventPriority → String
  | .LOW => "LOW"
  | .NORMAL => "NORMAL"
  | .HIGH => "HIGH"

/-- Python `EventType.name`. -/
def EventType.name : EventType → String
  | .KEEPALIVE => "KEEPALIVE"
  | .USER => "USER"
  | .DAILY_STATS => "DAILY_STATS"
  | .PLOTDECREASE => "PLOTDECREASE"
  | .PLOTINCREASE => "PLOTINCREASE"

/-- Python `EventService.name`. -/
def EventService.name : EventService → String
  | .HARVESTER => "HARVESTER"
  | .FARMER => "FARMER"
  | .FULL_NODE => "FULL_NODE"
  | .DAILY => "DAILY"
  | .WALLET => "WALLET"

/-- Python `EventType[s]`: lookup of an enum member by its exact name
(raises `KeyError`, i.e. `none`, when the name is not a member). -/
def EventType.fromName : String → Option EventType
  | "KEEPALIVE" => some .KEEPALIVE
  | "USER" => some .USER
  | "DAILY_STATS" => some .DAILY_STATS
  | "PLOTDECREASE" => some .PLOTDECREASE
  | "PLOTINCREASE" => some .PLOTINCREASE
  | _ => none

/-- Python `EventPriority[s]`. -/
def EventPriority.fromName : String → Option EventPriority
  | "LOW" => some .LOW
  | "NORMAL" => some .NORMAL
  | "HIGH" => some .HIGH
  | _ => none

/-- Python `EventService[s]`. -/
def EventService.fromName : String → Option EventService
  | "HARVESTER" => some .HARVESTER
  | "FARMER" => some .FARMER
  | "FULL_NODE" => some .FULL_NODE
  | "DAILY" => some .DAILY
  | "WALLET" => some .WALLET
  | _ => none

/-- The `Event` dataclass from `src/notifier/__init__.py`. -/
structure Event where
  type : EventType
  priority : EventPriority
  service : EventService
  message : String
deriving DecidableEq, Repr

/-! ## JSON values and `json.loads`

The Python standard library `json` module is external to the repository;
the value model and parser below are a faithful model of its documented
behaviour on the JSON fragment the claims exercise (objects, arrays,
strings without escape sequences, integers, booleans, null).  Inputs
outside that fragment (floats, string escapes) parse to an error, which
only ever makes the model more conservative about acceptance. -/

/-- JSON values as produced by `json.loads`. -/
inductive Json where
  | null
  | bool (b : Bool)
  | num (n : Int)
  | str (s : String)
  | arr (xs : List Json)
  | obj (kvs : List (String × Json))
deriving Repr

/-- Skip JSON whitespace. -/
def skipWs : List Char → List Char
  | c :: cs => if c = ' ' ∨ c = '\t' ∨ c = '\n' ∨ c = '\r' then skipWs cs else c :: cs
  | [] => []

/-- Read the characters of a JSON string literal up to the closing quote
(escape sequences are outside the modelled fragment). -/
def jparseStr : List Char → Except String (String × List Char)
  | [] => .error "Unterminated string"
  | c :: cs =>
    if c = dquote then .ok ("", cs)
    else if c = bslash then .error "string escapes not modelled"
    else match jparseStr cs with
      | .ok (s, rest) => .ok (⟨c :: s.data⟩, rest)
      | .error e => .error e

/-- Read a run of decimal digits. -/
def jparseDigits : List Char → (List Char × List Char)
  | [] => ([], [])
  | c :: cs =>
    if isDig c then
      let (ds, rest) := jparseDigits cs
      (c :: ds, rest)
    else ([], c :: cs)

/-- Natural number denoted by a list of decimal digit characters. -/
def digitsVal : List Char → Nat
  | [] => 0
  | ds => ds.foldl (fun acc c => acc * 10 + (c.toNat - 48)) 0

mutual

/-- Parse one JSON value (fuelled recursion). -/
def jparseVal : Nat → List Char → Except String (Json × List Char)
  | 0, _ => .error "out of fuel"
  | fuel + 1, s =>
    match skipWs s with
    | [] => .error "Expecting value"
    | c :: cs =>
      if c = lbrace then jparseObj fuel cs []
      else if c = '[' then jparseArr fuel cs []
      else if c = dquote then
        match jparseStr cs with
        | .ok (str, rest) => .ok (.str str, rest)
        | .error e => .error e
      else if c = 't' then
        match cs with
        | 'r' :: 'u' :: 'e' :: rest => .ok (.bool true, rest)
        | _ => .error "Expecting value"
      else if c = 'f' then
        match cs with
        | 'a' :: 'l' :: 's' :: 'e' :: rest => .ok (.bool false, rest)
        | _ => .error "Expecting value"
      else if c = 'n' then
        match cs with
        | 'u' :: 'l' :: 'l' :: rest => .ok (.null, rest)
        | _ => .error "Expecting value"
      else if c = '-' then
        match jparseDigits cs with
        | ([], _) => .error "Expecting value"
        | (ds, rest) => .ok (.num (-(digitsVal ds : Int)), rest)
      else if isDig c then
        match jparseDigits (c :: cs) with
        | (ds, rest) =>
          match rest with
          | '.' :: _ => .error "floats not modelled"
          | 'e' :: _ => .error "floats not modelled"
          | 'E' :: _ => .error "floats not modelled"
          | _ => .ok (.num (digitsVal ds : Int), rest)
      else .error "Expecting value"

/-- Parse the members of a JSON object after the opening brace. -/
def jparseObj : Nat → List Char → List (String × Json) →
    Except String (Json × List Char)
  | 0, _, _ => .error "out of fuel"
  | fuel + 1, s, acc =>
    match skipWs s with
    | [] => .error "Unterminated object"
    | c :: cs =>
      if c = rbrace then .ok (.obj acc.reverse, cs)
      else if c = dquote then
        match jparseStr cs with
        | .error e => .error e
        | .ok (key, rest) =>
          match skipWs rest with
          | ':' :: rest2 =>
            match jparseVal fuel rest2 with
            | .error e => .error e
            | .ok (v, rest3) =>
              match skipWs rest3 with
              | ',' :: rest4 => jparseObj fuel rest4 ((key, v) :: acc)
              | c2 :: rest4 =>
                if c2 = rbrace then .ok (.obj ((key, v) :: acc).reverse, rest4)
                else .error "Expecting comma"
              | [] => .error "Unterminated object"
          | _ => .error "Expecting colon"
      else .error "Expecting property name"

/-- Parse the items of a JSON array after the opening bracket. -/
def jparseArr : Nat → List Char → List Json → Except String (Json × List Char)
  | 0, _, _ => .error "out of fuel"
  | fuel + 1, s, acc =>
    match skipWs s with
    | [] => .error "Unterminated array"
    | c :: cs =>
      if c = ']' then .ok (.arr acc.reverse, cs)
      else
        match jparseVal fuel (c :: cs) with
        | .error e => .error e
        | .ok (v, rest) =>
          match skipWs rest with
          | ',' :: rest2 => jparseArr fuel rest2 (v :: acc)
          | ']' :: rest2 => .ok (.arr (v :: acc).reverse, rest2)
          | _ => .error "Expecting comma"

end

/-- Python `json.loads`: parse a complete JSON document, rejecting
trailing data. -/
def json_loads (s : String) : Except String Json :=
  match jparseVal (s.length * 2 + 16) s.data with
  | .error e => .error e
  | .ok (v, rest) =>
    match skipWs rest with
    | [] => .ok v
    | _ => .error "Extra data"

/-- Python `'k' in d` / `d['k']` on a parsed JSON object: key lookup, the
last binding winning as in `dict`.  Returns `none` on non-objects. -/
def Json.getKey : Json → String → Option Json
  | .obj kvs, k =>
    match kvs.reverse.find? (fun kv => kv.1 = k) with
    | some kv => some kv.2
    | none => none
  | _, _ => none

mutual

/-- Structural equality of JSON values (Python `==` on parsed JSON). -/
def Json.beq : Json → Json → Bool
  | .null, .null => true
  | .bool a, .bool b => a = b
  | .num a, .num b => a = b
  | .str a, .str b => a = b
  | .arr xs, .arr ys => Json.beqList xs ys
  | .obj xs, .obj ys => Json.beqObj xs ys
  | _, _ => false

/-- Elementwise equality of JSON arrays. -/
def Json.beqList : List Json → List Json → Bool
  | [], [] => true
  | x :: xs, y :: ys => Json.beq x y && Json.beqList xs ys
  | _, _ => false

/-- Pairwise equality of JSON object members. -/
def Json.beqObj : List (String × Json) → List (String × Json) → Bool
  | [], [] => true
  | (k, v) :: xs, (l, w) :: ys => k = l && Json.beq v w && Json.beqObj xs ys
  | _, _ => false

end

/-- Python truthiness of a JSON value. -/
def Json.truthy : Json → Bool
  | .null => false
  | .bool b => b
  | .num n => n ≠ 0
  | .str s => s ≠ ""
  | .arr xs => !xs.isEmpty
  | .obj kvs => !kvs.isEmpty

/-- Modelled from the spec: Python `re.search(pattern, text, re.M | re.I)`
from the external `re` library — a case-insensitive, multiline regex
search.  The model covers patterns made of plain characters (no regex
metacharacters), optionally anchored with a leading caret, which under
`re.M` matches at the start of the text or of any later line;
case-insensitivity is modelled by lower-casing both pattern and text.
Patterns outside this fragment evaluate to a fault, standing in for the
unmodelled part of the regex language (see `re_search_im`). -/
def reMetaChars : List Char :=
  [bslash, '.', '$', '*', '+', '?', '[', ']', '(', ')', lbrace, rbrace, '|', '^']

/-- Is the pattern made only of plain characters (no regex
metacharacters)? -/
def plainPattern (pat : String) : Bool :=
  !pat.data.any (fun c => reMetaChars.contains c)

/-- Does `pat` occur right after some newline of `txt` (the `re.M`
meaning of a caret anchor, beyond the start of the text)? -/
def lineStartMatch (pat : List Char) : List Char → Bool
  | [] => false
  | c :: rest => (c = '\n' && pat.isPrefixOf rest) || lineStartMatch pat rest

/-- Modelled from the spec: the search operation itself; see
`reMetaChars` for the covered pattern fragment.  A pattern of plain
characters searches as a case-folded substring test; a caret-anchored
plain pattern matches at the start of the text or of any later line
(`re.M`); anything else is outside the model. -/
def re_search_im (pattern text : String) : Except String Bool :=
  if plainPattern pattern then .ok (strContains (pyLower text) (pyLower pattern))
  else
    match pattern.data with
    | '^' :: rest =>
      if rest.any (fun c => reMetaChars.contains c) then
        .error "pattern outside modelled fragment"
      else
        let pat := (pyLower ⟨rest⟩).data
        let txt := (pyLower text).data
        .ok (pat.isPrefixOf txt || lineStartMatch pat txt)
    | _ => .error "pattern outside modelled fragment"

mutual

/-- Modelled from the spec: the external `json_logic.jsonLogic` evaluator —
a nested boolean-expression tree (operators AND, OR, NOT, equality,
membership, variable lookup, regex-match) evaluated against the flattened
record; unknown or ill-formed trees raise an evaluation fault.  Literals
evaluate to themselves; an operation node is a one-member object whose
argument list is evaluated eagerly. -/
def jsonLogicF : Nat → Json → List (String × String) → Except String Json
  | 0, _, _ => .error "out of fuel"
  | _ + 1, .obj [], _ => .ok (.obj [])
  | fuel + 1, .obj [(op, argSpec)], data => do
    let rawArgs := match argSpec with
      | .arr xs => xs
      | v => [v]
    if op = "var" then
      match rawArgs with
      | [.str name] =>
        match data.find? (fun kv => kv.1 = name) with
        | some kv => .ok (.str kv.2)
        | none => .ok .null
      | _ => .error "var expects a name"
    else
      let args ← jsonLogicArgs fuel rawArgs data
      if op = "==" then
        match args with
        | [a, b] => .ok (.bool (Json.beq a b))
        | _ => .error "== expects two arguments"
      else if op = "!=" then
        match args with
        | [a, b] => .ok (.bool (!Json.beq a b))
        | _ => .error "!= expects two arguments"
      else if op = "!" then
        match args with
        | [a] => .ok (.bool (!a.truthy))
        | _ => .error "! expects one argument"
      else if op = "and" then
        match args.find? (fun v => !v.truthy) with
        | some v => .ok v
        | none => .ok (args.getLastD (.bool true))
      else if op = "or" then
        match args.find? (fun v => v.truthy) with
        | some v => .ok v
        | none => .ok (args.getLastD (.bool false))
      else if op = "in" then
        match args with
        | [a, .str s] =>
          match a with
          | .str needle => .ok (.bool (strContains s needle))
          | _ => .ok (.bool false)
        | [a, .arr xs] => .ok (.bool (xs.any (fun x => Json.beq a x)))
        | _ => .error "in expects two arguments"
      else if op = "regex" then
        match args with
        | [.str pat, .str s] =>
          match re_search_im pat s with
          | .ok b => .ok (.bool b)
          | .error e => .error e
        | _ => .error "regex expects pattern and string"
      else .error ("Unrecognized operation " ++ op)
  | _ + 1, .obj _, _ => .error "operation object must have one member"
  | fuel + 1, .arr xs, data => do
    let vs ← jsonLogicArgs fuel xs data
    .ok (.arr vs)
  | _ + 1, v, _ => .ok v

/-- Evaluate a list of jsonLogic argument expressions in order. -/
def jsonLogicArgs : Nat → List Json → List (String × String) →
    Except String (List Json)
  | 0, _, _ => .error "out of fuel"
  | _ + 1, [], _ => .ok []
  | fuel + 1, x :: xs, data => do
    let v ← jsonLogicF fuel x data
    let vs ← jsonLogicArgs (fuel + 1) xs data
    .ok (v :: vs)

end

mutual

/-- Size of a JSON value, used as evaluation fuel. -/
def Json.size : Json → Nat
  | .arr xs => 1 + Json.sizeList xs
  | .obj xs => 1 + Json.sizeObj xs
  | _ => 1

/-- Total size of a list of JSON values. -/
def Json.sizeList : List Json → Nat
  | [] => 0
  | x :: xs => Json.size x + Json.sizeList xs

/-- Total size of JSON object members. -/
def Json.sizeObj : List (String × Json) → Nat
  | [] => 0
  | (_, v) :: xs => 1 + Json.size v + Json.sizeObj xs

end

/-- Modelled from the spec: `json_logic.jsonLogic(rule, data)` entry point. -/
def jsonLogic (rule : Json) (data : List (String × String)) : Except String Json :=
  jsonLogicF (Json.size rule + 1) rule data

/-! ## Notifier (`src/notifier/__init__.py`) -/

/-- `MINIMUM_LAUNCH_SECONDS_BEFORE_ALERTING_ABOUT_BEING_OFFLINE = 30 * 60`. -/
def MINIMUM_LAUNCH_SECONDS_BEFORE_ALERTING_ABOUT_BEING_OFFLINE : Nat := 30 * 60

/-- An `ignore` / `allow` rule spec from the channel configuration: a dict
with up to five recognised string-valued keys, each modelled as present or
absent. -/
structure RuleSpec where
  type : Option String := none
  priority : Option String := none
  service : Option String := none
  message : Option String := none
  compound : Option String := none
deriving DecidableEq, Repr

/-- The configuration dict consumed by `Notifier.__init__`: the four
feature flags read with `config.get(key, False)` and the optional
`ignore` / `allow` rule specs. -/
structure NotifierConfig where
  daily_stats : Bool := false
  wallet_events : Bool := false
  decreasing_plot_events : Bool := false
  increasing_plot_events : Bool := false
  ignore : Option RuleSpec := none
  allow : Option RuleSpec := none
deriving DecidableEq, Repr

/-- The state a `Notifier` instance holds after `__init__`
(`self._program_launch_time`, `self._title_prefix`, `self._config`,
`self._notification_types`, `self._notification_services`). -/
structure Notifier where
  program_launch_time : Nat
  titlePrefix : String
  config : NotifierConfig
  notification_types : List EventType
  notification_services : List EventService
deriving DecidableEq, Repr

/-- `Notifier.__init__(title_prefix, config)` with `time.time()` passed
explicitly as `now`. -/
def Notifier.init (titlePrefix : String) (config : NotifierConfig) (now : Nat) :
    Notifier :=
  let types0 := [EventType.USER]
  let services0 := [EventService.HARVESTER, EventService.FARMER, EventService.FULL_NODE]
  let types1 := if config.daily_stats then types0 ++ [EventType.DAILY_STATS] else types0
  let services1 := if config.daily_stats then services0 ++ [EventService.DAILY] else services0
  let services2 := if config.wallet_events then services1 ++ [EventService.WALLET] else services1
  let types2 := if config.decreasing_plot_events then types1 ++ [EventType.PLOTDECREASE] else types1
  let types3 := if config.increasing_plot_events then types2 ++ [EventType.PLOTINCREASE] else types2
  { program_launch_time := now
    titlePrefix := titlePrefix
    config := config
    notification_types := types3
    notification_services := services2 }

/-- The flattened record handed to `jsonLogic` (both in
`should_ignore_event` and `should_allow_event`): enum names lower-cased,
message kept raw. -/
def flattenEvent (ev : Event) : List (String × String) :=
  [("type", pyLower ev.type.name), ("priority", pyLower ev.priority.name),
   ("service", pyLower ev.service.name), ("message", ev.message)]

/-- The shared `try:` block body of `should_ignore_event` and
`should_allow_event` (their source is identical up to the config key):
flat field checks in order (`type`, `priority`, `service` by exact string
equality against `.name`, `message` by `re.search` with `re.M | re.I`),
then the optional `compound` jsonLogic rule; the first match returns true,
a compound rule returns the truthiness of its result, and any raised fault
escapes as `.error`. -/
def evalRuleSpec (spec : RuleSpec) (ev : Event) : Except String Bool :=
  if spec.type = some ev.type.name then .ok true
  else if spec.priority = some ev.priority.name then .ok true
  else if spec.service = some ev.service.name then .ok true
  else
    let msgRes : Except String Bool :=
      match spec.message with
      | some pat => re_search_im pat ev.message
      | none => .ok false
    match msgRes with
    | .error e => .error e
    | .ok true => .ok true
    | .ok false =>
      match spec.compound with
      | some cstr =>
        match json_loads cstr with
        | .error e => .error e
        | .ok rule =>
          match jsonLogic rule (flattenEvent ev) with
          | .error e => .error e
          | .ok result => .ok result.truthy
      | none => .ok false

/-- The grace-period condition of `should_ignore_event`: the process was
launched at most 30 minutes ago and the event is one of the known-spurious
restart messages (the harvester-offline message checked together with the
service name being `HARVESTER`, the networking-issues and keepalive
messages checked on the message alone). -/
def graceCondition (launch : Nat) (ev : Event) (now : Nat) : Bool :=
  decide (launch + MINIMUM_LAUNCH_SECONDS_BEFORE_ALERTING_ABOUT_BEING_OFFLINE ≥ now) &&
    ((decide (ev.service.name = "HARVESTER") &&
        pyStartsWith ev.message "Your harvester appears to be offline!") ||
      pyStartsWith ev.message "Experiencing networking issues?" ||
      pyStartsWith ev.message "Cha-ching!")

/-- `Notifier.should_ignore_event(event)` with `time.time()` passed
explicitly as `now`: the grace-period check, then the configured `ignore`
spec evaluated inside `try/except` (a fault falls through to
`return False`). -/
def Notifier.should_ignore_event (n : Notifier) (ev : Event) (now : Nat) : Bool :=
  if graceCondition n.program_launch_time ev now then true
  else
    match n.config.ignore with
    | none => false
    | some ig =>
      match evalRuleSpec ig ev with
      | .ok b => b
      | .error _ => false

/-- `Notifier.should_allow_event(event)`: allow-all when no `allow` spec
is configured, otherwise the spec evaluated inside `try/except` (a fault
falls through to `return False`). -/
def Notifier.should_allow_event (n : Notifier) (ev : Event) : Bool :=
  match n.config.allow with
  | none => true
  | some al =>
    match evalRuleSpec al ev with
    | .ok b => b
    | .error _ => false

/-- Modelled from the spec: the per-event filtering decision the dispatch
sink applies for each channel — "if `shouldIgnore` → suppress; else if not
`shouldAllow` → suppress; else deliver via the channel-specific send
operation".  The concrete dispatcher is not among the provided sources. -/
def Notifier.deliversEvent (n : Notifier) (ev : Event) (now : Nat) : Bool :=
  if n.should_ignore_event ev now then false
  else if !n.should_allow_event ev then false
  else true

/-! ## Wallet coin parser
(`src/chia_log/parsers/wallet_added_coin_parser.py`)

The compiled pattern of `WalletAddedCoinParser.__init__` is embedded as a
sequence of regex elements covering exactly the constructs the pattern
uses (literals, ordered literal alternation, `.`, greedy stars over
one-character classes — two of them capturing — and an optional quote),
with Python's leftmost, greedy, backtracking `findall` semantics. -/

/-- One element of the compiled wallet pattern. -/
inductive RElem where
  | lit (s : List Char)
  | alts (ss : List (List Char))
  | anyOne
  | star (cls : Char → Bool)
  | grpStar (idx : Nat) (cls : Char → Bool)
  | opt (c : Char)

/-- Consume a literal character sequence, returning the rest of the
input on success. -/
def consumeLit : List Char → List Char → Option (List Char)
  | [], s => some s
  | c :: cs, d :: ds => if c = d then consumeLit cs ds else none
  | _ :: _, [] => none

/-- Length of the longest prefix drawn from a character class. -/
def classRunLen (cls : Char → Bool) : List Char → Nat
  | [] => 0
  | c :: cs => if cls c then classRunLen cls cs + 1 else 0

/-- Backtracking matcher for a pattern-element list at the head of the
input: greedy stars try the longest class run first, alternatives are
tried in order.  Returns the remaining input and the two captures.  The
fuel only bounds the pattern-element recursion depth, so any fuel above
the pattern length is enough. -/
def matchElems : Nat → List RElem → List Char → String → String →
    Option (List Char × String × String)
  | 0, _, _, _, _ => none
  | _ + 1, [], s, g1, g2 => some (s, g1, g2)
  | fuel + 1, .lit l :: rest, s, g1, g2 =>
    match consumeLit l s with
    | some s2 => matchElems fuel rest s2 g1 g2
    | none => none
  | fuel + 1, .alts ss :: rest, s, g1, g2 =>
    ss.findSome? (fun a =>
      match consumeLit a s with
      | some s2 => matchElems fuel rest s2 g1 g2
      | none => none)
  | fuel + 1, .anyOne :: rest, s, g1, g2 =>
    match s with
    | c :: cs => if c = '\n' then none else matchElems fuel rest cs g1 g2
    | [] => none
  | fuel + 1, .star cls :: rest, s, g1, g2 =>
    (List.range (classRunLen cls s + 1)).reverse.findSome? (fun k =>
      matchElems fuel rest (s.drop k) g1 g2)
  | fuel + 1, .grpStar idx cls :: rest, s, g1, g2 =>
    (List.range (classRunLen cls s + 1)).reverse.findSome? (fun k =>
      if idx = 1 then matchElems fuel rest (s.drop k) ⟨s.take k⟩ g2
      else matchElems fuel rest (s.drop k) g1 ⟨s.take k⟩)
  | fuel + 1, .opt c :: rest, s, g1, g2 =>
    match s with
    | d :: ds =>
      if d = c then
        match matchElems fuel rest ds g1 g2 with
        | some r => some r
        | none => matchElems fuel rest s g1 g2
      else matchElems fuel rest s g1 g2
    | [] => matchElems fuel rest s g1 g2

/-- `re.findall` over the input: scan left to right, try a match at each
position, record the captures of each match and continue after its end
(non-overlapping; an empty match advances by one character). -/
def reFindAll (pat : List RElem) : Nat → List Char → List (String × String)
  | 0, _ => []
  | _ + 1, [] =>
    match matchElems (pat.length + 1) pat [] "" "" with
    | some (_, g1, g2) => [(g1, g2)]
    | none => []
  | fuel + 1, s =>
    match matchElems (pat.length + 1) pat s "" "" with
    | some (rest, g1, g2) =>
      if rest.length = s.length then
        match s with
        | [] => [(g1, g2)]
        | _ :: cs => (g1, g2) :: reFindAll pat fuel cs
      else (g1, g2) :: reFindAll pat fuel rest
    | none =>
      match s with
      | [] => []
      | _ :: cs => reFindAll pat fuel cs

/-- `self._regex.findall(logs)` with the two captured groups. -/
def findall (pat : List RElem) (logs : String) : List (String × String) :=
  reFindAll pat (logs.length + 1) logs.data

/-- The class `[0-9:.T-]` of the timestamp group. -/
def tsClass (c : Char) : Bool :=
  isDig c || c = ':' || c = '.' || c = 'T' || c = '-'

/-- Python `.` (any character except a newline, `re.S` not being set). -/
def anyChar (c : Char) : Bool := c ≠ '\n'

/-- Python `\s` (ASCII whitespace). -/
def wsClass (c : Char) : Bool :=
  c = ' ' || c = '\t' || c = '\n' || c = '\r' || c = '\x0b' || c = '\x0c'

/-- The compiled pattern of `WalletAddedCoinParser.__init__`:
`([0-9:.T-]*) wallet (?:src|PFX).wallet.wallet_(?:state_manager|node).*`
`INFO\s*(?:Adding|Adding record to state manager|request) coin:.*`
`'?amount'?: ([0-9]*)` with the configured prefix spliced in. -/
def walletCoinRegex (pfx : String) : List RElem :=
  [.grpStar 1 tsClass,
   .lit " wallet ".data,
   .alts ["src".data, pfx.data],
   .anyOne, .lit "wallet".data, .anyOne, .lit "wallet_".data,
   .alts ["state_manager".data, "node".data],
   .star anyChar,
   .lit "INFO".data,
   .star wsClass,
   .alts ["Adding".data, "Adding record to state manager".data, "request".data],
   .lit " coin:".data,
   .star anyChar,
   .opt squote,
   .lit "amount".data,
   .opt squote,
   .lit ": ".data,
   .grpStar 2 isDig]

/-- Python `int(s)` on a matched group: fails (`ValueError`) on the empty
string, converts a run of decimal digits otherwise. -/
def pyInt (s : String) : Except String Nat :=
  if s.data.all isDig ∧ s ≠ "" then .ok (digitsVal s.data)
  else .error "ValueError: invalid literal for int"

/-- Modelled from the spec: `dateutil.parser.parse` from the external
`dateutil` library, applied to the timestamp text matched by the log
regex.  The model keeps the matched text as the timestamp value and
raises when the text contains no digit at all (in particular on the empty
string), the fragment of its failure behaviour this development uses. -/
def dateutil_parse (s : String) : Except String String :=
  if s.data.any isDig then .ok s else .error "ParserError"

/-- The `WalletAddedCoinMessage` dataclass (timestamp kept as the matched
text, see `dateutil_parse`). -/
structure WalletAddedCoinMessage where
  timestamp : String
  amount_mojos : Nat
deriving DecidableEq, Repr

/-- The loop body of `WalletAddedCoinParser.parse` over the regex
matches: `int` conversion, per-fork scaling by configured prefix, then
the record construction (whose timestamp parse may also raise). -/
def walletParseLoop (pfx : String) :
    List (String × String) → Except String (List WalletAddedCoinMessage)
  | [] => .ok []
  | (ts, amt) :: rest =>
    match pyInt amt with
    | .error e => .error e
    | .ok mojosBase =>
      let mojos :=
        if pfx = "chives" then mojosBase * 10000
        else if pfx = "cryptodoge" then mojosBase * 1000000
        else if pfx = "shibgreen" ∨ pfx = "littlelambocoin" then mojosBase * 1000000000
        else if pfx = "stai" then mojosBase * 1000
        else mojosBase
      match dateutil_parse ts with
      | .error e => .error e
      | .ok tsv =>
        match walletParseLoop pfx rest with
        | .error e => .error e
        | .ok tail => .ok (⟨tsv, mojos⟩ :: tail)

/-- `WalletAddedCoinParser.parse(logs)` for a parser constructed with
configured prefix `pfx`; a raised exception surfaces as `.error`. -/
def WalletAddedCoinParser.parse (pfx : String) (logs : String) :
    Except String (List WalletAddedCoinMessage) :=
  walletParseLoop pfx (findall (walletCoinRegex pfx) logs)

/-- The per-deployment multiplier table as the spec states it, keyed on
the configured prefix: ×10000 for chives, ×1000000 for cryptodoge,
×1000000000 for shibgreen and littlelambocoin, ×1000 for stai, ×1 for
anything else. -/
def multiplierTable (pfx : String) : Nat :=
  if pfx = "chives" then 10000
  else if pfx = "cryptodoge" then 1000000
  else if pfx = "shibgreen" ∨ pfx = "littlelambocoin" then 1000000000
  else if pfx = "stai" then 1000
  else 1

/-! ## Ingestion endpoint (`src/chia_log/api_handler.py`) -/

/-- The observable outcome of a completed `do_POST`: the HTTP status it
sent, the text body (if any), and the events handed to
`notify_manager.process_events`. -/
structure PostResponse where
  status : Nat
  body : Option String
  events : List Event
deriving DecidableEq, Repr

/-- Characters before the first semicolon. -/
def takeUntilSemi : List Char → List Char
  | [] => []
  | c :: t => if c = ';' then [] else c :: takeUntilSemi t

/-- Python `str.strip()`: drop leading and trailing whitespace. -/
def trimChars (l : List Char) : List Char :=
  ((l.dropWhile wsClass).reverse.dropWhile wsClass).reverse

/-- `cgi.parse_header(line)` main value: the text before the first
semicolon, stripped of surrounding whitespace (no case folding). -/
def parseHeaderMain (line : String) : String :=
  ⟨trimChars (takeUntilSemi line.data)⟩

/-- Python `'k' in message` on the parsed JSON body: dict/list/str
membership; a `TypeError` on the remaining types. -/
def Json.hasKeyPy : Json → String → Except String Bool
  | .obj kvs, k => .ok (kvs.any (fun kv => kv.1 = k))
  | .arr xs, k => .ok (xs.any (fun x => Json.beq x (.str k)))
  | .str s, k => .ok (strContains s k)
  | _, _ => .error "TypeError: argument is not iterable"

/-- Python `message['k']` on the parsed JSON body: dict lookup (last
binding wins) with `KeyError` when absent; `TypeError` on non-dicts. -/
def Json.getItemPy : Json → String → Except String Json
  | .obj kvs, k =>
    match kvs.reverse.find? (fun kv => kv.1 = k) with
    | some kv => .ok kv.2
    | none => .error "KeyError"
  | _, _ => .error "TypeError: indices must be integers"

/-- Python `v.upper()`: string upper-casing; `AttributeError` on
non-strings. -/
def pyUpper : Json → Except String String
  | .str s => .ok (pyUpperStr s)
  | _ => .error "AttributeError: no attribute upper"

/-- `RequestHandler.do_POST`.  The request is modelled by its
`Content-Type` header (absent = `none`) and body text (the
content-length framing assumed consistent).  A Python exception escaping
`do_POST` — which `http.server` surfaces as a logged traceback and a
dropped connection, not as an HTTP 400 — is modelled as `.error`.
Non-string values under the `message` key flow into the `Event`
unchecked in Python; the model collapses them to `""`, which no claim
observes. -/
def do_POST (contentType : Option String) (body : String) :
    Except String PostResponse :=
  match contentType with
  | none => .error "TypeError: cannot parse header None"
  | some ctHeader =>
    if parseHeaderMain ctHeader ≠ "application/json" then .ok ⟨400, none, []⟩
    else
      match json_loads body with
      | .error e => .error e
      | .ok message =>
        match message.hasKeyPy "type" with
        | .error e => .error e
        | .ok false => .ok ⟨400, none, []⟩
        | .ok true =>
          match message.getItemPy "type" with
          | .error e => .error e
          | .ok tv =>
            match pyUpper tv with
            | .error e => .error e
            | .ok tname =>
              match EventType.fromName tname with
              | none => .error "KeyError: not an EventType member"
              | some event_type =>
                match message.hasKeyPy "priority" with
                | .error e => .error e
                | .ok false => .ok ⟨400, none, []⟩
                | .ok true =>
                  match message.getItemPy "priority" with
                  | .error e => .error e
                  | .ok pv =>
                    match pyUpper pv with
                    | .error e => .error e
                    | .ok pname =>
                      match EventPriority.fromName pname with
                      | none => .error "KeyError: not an EventPriority member"
                      | some event_priority =>
                        match message.hasKeyPy "service" with
                        | .error e => .error e
                        | .ok false => .ok ⟨400, none, []⟩
                        | .ok true =>
                          match message.getItemPy "service" with
                          | .error e => .error e
                          | .ok sv =>
                            match pyUpper sv with
                            | .error e => .error e
                            | .ok sname =>
                              match EventService.fromName sname with
                              | none => .error "KeyError: not an EventService member"
                              | some event_service =>
                                match message.hasKeyPy "message" with
                                | .error e => .error e
                                | .ok false => .ok ⟨400, none, []⟩
                                | .ok true =>
                                  match message.getItemPy "message" with
                                  | .error e => .error e
                                  | .ok mv =>
                                    let msgTxt :=
                                      match mv with
                                      | .str s => s
                                      | _ => ""
                                    .ok ⟨200,
                                      some "Event received and notifications sent.",
                                      [⟨event_type, event_priority,
                                        event_service, msgTxt⟩]⟩

/-! ## Fan-out log handler
(`src/chia_log/handlers/partial_handler.py`)

`PartialParser` and the condition checkers live outside the provided
sources (they are collaborators of this module), so `handle` is
parameterised by the parse function and by the checkers' `check`
operations; the stats manager is modelled by the record batch passed to
its `consume_partial_messages`. -/

/-- `PartialHandler.handle(logs, stats_manager)`: parse once, forward
the parsed records to the stats manager when one is supplied, then run
every checker on every record in record-major order, appending each
emitted event.  Returns the collected events together with the records
the stats manager consumed. -/
def PartialHandler.handle {α : Type} (parse : String → List α)
    (checkers : List (α → Option Event)) (logs : String) (statsPresent : Bool) :
    List Event × List α :=
  let msgs := parse logs
  let statsConsumed := if statsPresent then msgs else []
  let events := msgs.foldl (fun acc m =>
    checkers.foldl (fun acc2 c =>
      match c m with
      | some e => acc2 ++ [e]
      | none => acc2) acc) []
  (events, statsConsumed)

/-! ## Helper lemmas -/

/-- `service.name` equals `"HARVESTER"` exactly for the `HARVESTER`
member. -/
theorem EventService.name_harvester (s : EventService) :
    decide (s.name = "HARVESTER") = decide (s = EventService.HARVESTER) := by
  cases s <;> decide

/-- A plain pattern (no metacharacters) searches as a case-folded
substring test. -/
theorem re_search_im_plain (pat text : String) (h : plainPattern pat = true) :
    re_search_im pat text = .ok (strContains (pyLower text) (pyLower pat)) := by
  unfold re_search_im
  rw [if_pos h]

/-- `Notifier.init` stores the configuration unchanged. -/
theorem Notifier.init_config (tp : String) (cfg : NotifierConfig) (now : Nat) :
    (Notifier.init tp cfg now).config = cfg := rfl

/-- `Notifier.init` stores the construction time as the launch time. -/
theorem Notifier.init_launch (tp : String) (cfg : NotifierConfig) (now : Nat) :
    (Notifier.init tp cfg now).program_launch_time = now := rfl

/-! ## C1 -/

/-- C1: ignore takes precedence over allow — for a Notifier configured
with `ignore = {type: "KEEPALIVE"}` and `allow = {service: "WALLET"}`,
every Event with type `KEEPALIVE` and service `WALLET` has
`should_ignore_event` = true, so the spec's filter-then-send policy never
delivers it even though the allow spec matches it. -/
theorem C1_ignore_precedence (tp msg : String) (p : EventPriority) (launch now : Nat) :
    ((Notifier.init tp
        { ignore := some { type := some "KEEPALIVE" },
          allow := some { service := some "WALLET" } } launch).should_ignore_event
      ⟨.KEEPALIVE, p, .WALLET, msg⟩ now = true)
    ∧ ((Notifier.init tp
        { ignore := some { type := some "KEEPALIVE" },
          allow := some { service := some "WALLET" } } launch).should_allow_event
      ⟨.KEEPALIVE, p, .WALLET, msg⟩ = true)
    ∧ ((Notifier.init tp
        { ignore := some { type := some "KEEPALIVE" },
          allow := some { service := some "WALLET" } } launch).deliversEvent
      ⟨.KEEPALIVE, p, .WALLET, msg⟩ now = false) := by
  have hig : (Notifier.init tp
      { ignore := some { type := some "KEEPALIVE" },
        allow := some { service := some "WALLET" } } launch).should_ignore_event
      ⟨.KEEPALIVE, p, .WALLET, msg⟩ now = true := by
    unfold Notifier.should_ignore_event
    split
    · rfl
    · rfl
  refine ⟨hig, rfl, ?_⟩
  unfold Notifier.deliversEvent
  rw [hig]
  rfl

/-! ## C2 -/

/-- C2 counterexample: the claim says flat field matching is
case-insensitive, so an ignore spec `{type: "keepalive"}` should match an
Event with type `KEEPALIVE`; in the code the comparison is exact string
equality, and `should_ignore_event` returns false. -/
theorem C2_counterexample :
    (Notifier.init "T" { ignore := some { type := some "keepalive" } } 0).should_ignore_event
      ⟨.KEEPALIVE, .NORMAL, .WALLET, "hello"⟩ 999999 = false := by rfl

/-- C2 amended: a `type`, `priority` or `service` field in a flat rule
spec matches by exact, case-sensitive string equality against the
upper-cased enum name of the Event's field; only a `message` field is
matched case-insensitively (regex search with `re.M | re.I`), here for a
metacharacter-free pattern as a case-folded substring test.  Stated for
ignore specs evaluated outside the grace window. -/
theorem C2_flat_field_matching (tp : String) (ev : Event) (s pat : String)
    (launch now : Nat)
    (hgrace : graceCondition launch ev now = false)
    (hplain : plainPattern pat = true) :
    ((Notifier.init tp { ignore := some { type := some s } } launch).should_ignore_event
        ev now = decide (s = ev.type.name))
  ∧ ((Notifier.init tp { ignore := some { priority := some s } } launch).should_ignore_event
        ev now = decide (s = ev.priority.name))
  ∧ ((Notifier.init tp { ignore := some { service := some s } } launch).should_ignore_event
        ev now = decide (s = ev.service.name))
  ∧ ((Notifier.init tp { ignore := some { message := some pat } } launch).should_ignore_event
        ev now = strContains (pyLower ev.message) (pyLower pat)) := by
  refine ⟨?_, ?_, ?_, ?_⟩
  · unfold Notifier.should_ignore_event
    rw [Notifier.init_launch, hgrace]
    simp only [Bool.false_eq_true, if_false, Notifier.init_config]
    by_cases hs : s = ev.type.name
    · simp [evalRuleSpec, hs]
    · simp [evalRuleSpec, hs]
  · unfold Notifier.should_ignore_event
    rw [Notifier.init_launch, hgrace]
    simp only [Bool.false_eq_true, if_false, Notifier.init_config]
    by_cases hs : s = ev.priority.name
    · simp [evalRuleSpec, hs]
    · simp [evalRuleSpec, hs]
  · unfold Notifier.should_ignore_event
    rw [Notifier.init_launch, hgrace]
    simp only [Bool.false_eq_true, if_false, Notifier.init_config]
    by_cases hs : s = ev.service.name
    · simp [evalRuleSpec, hs]
    · simp [evalRuleSpec, hs]
  · unfold Notifier.should_ignore_event
    rw [Notifier.init_launch, hgrace]
    simp only [Bool.false_eq_true, if_false, Notifier.init_config]
    simp only [evalRuleSpec, re_search_im_plain _ _ hplain]
    cases hb : strContains (pyLower ev.message) (pyLower pat) <;> simp [hb]

/-- C2 amended, witnessed at concrete inputs: the event message
"Hello World" is matched by the pattern "WORLD" case-insensitively, and
the type spec "KEEPALIVE" matches type `KEEPALIVE` exactly. -/
theorem C2_flat_field_matching_witness :
    graceCondition 0 ⟨.KEEPALIVE, .NORMAL, .WALLET, "Hello World"⟩ 999999 = false
  ∧ plainPattern "WORLD" = true
  ∧ ((Notifier.init "T" { ignore := some { type := some "KEEPALIVE" } } 0).should_ignore_event
        ⟨.KEEPALIVE, .NORMAL, .WALLET, "Hello World"⟩ 999999
      = decide ("KEEPALIVE" = EventType.name EventType.KEEPALIVE))
  ∧ ((Notifier.init "T" { ignore := some { message := some "WORLD" } } 0).should_ignore_event
        ⟨.KEEPALIVE, .NORMAL, .WALLET, "Hello World"⟩ 999999
      = strContains (pyLower "Hello World") (pyLower "WORLD")) :=
  ⟨by decide, by decide,
    (C2_flat_field_matching "T" ⟨.KEEPALIVE, .NORMAL, .WALLET, "Hello World"⟩
      "KEEPALIVE" "WORLD" 0 999999 (by decide) (by decide)).1,
    (C2_flat_field_matching "T" ⟨.KEEPALIVE, .NORMAL, .WALLET, "Hello World"⟩
      "KEEPALIVE" "WORLD" 0 999999 (by decide) (by decide)).2.2.2⟩

/-! ## C3 -/

/-- C3: rule-evaluation-fault asymmetry — outside the grace window, a
fault while evaluating the configured ignore rule makes
`should_ignore_event` return false (fails open), and a fault while
evaluating the configured allow rule makes `should_allow_event` return
false (fails closed); both predicates stay total Booleans, so the fault
never reaches the caller. -/
theorem C3_fault_asymmetry (n : Notifier) (ev : Event) (now : Nat)
    (ig al : RuleSpec) (f g : String)
    (hgrace : graceCondition n.program_launch_time ev now = false)
    (hig : n.config.ignore = some ig) (higf : evalRuleSpec ig ev = .error f)
    (hal : n.config.allow = some al) (half : evalRuleSpec al ev = .error g) :
    n.should_ignore_event ev now = false ∧ n.should_allow_event ev = false := by
  constructor
  · unfold Notifier.should_ignore_event
    simp [hgrace, hig, higf]
  · unfold Notifier.should_allow_event
    simp [hal, half]

set_option maxRecDepth 8192 in
/-- C3 witnessed at a concrete faulty rule: the compound spec
`"\x7b\x7b"` is malformed JSON, its evaluation faults, and the notifier
resolves ignore to false and allow to false. -/
theorem C3_fault_asymmetry_witness :
    evalRuleSpec { compound := some "\x7b\x7b" } ⟨.USER, .HIGH, .FARMER, "hello"⟩
        = .error "Expecting property name"
  ∧ (Notifier.init "T"
        { ignore := some { compound := some "\x7b\x7b" },
          allow := some { compound := some "\x7b\x7b" } } 0).should_ignore_event
        ⟨.USER, .HIGH, .FARMER, "hello"⟩ 999999 = false
  ∧ (Notifier.init "T"
        { ignore := some { compound := some "\x7b\x7b" },
          allow := some { compound := some "\x7b\x7b" } } 0).should_allow_event
        ⟨.USER, .HIGH, .FARMER, "hello"⟩ = false :=
  ⟨by rfl,
    (C3_fault_asymmetry _ ⟨.USER, .HIGH, .FARMER, "hello"⟩ 999999 _ _
      "Expecting property name" "Expecting property name"
      (by decide) rfl (by rfl) rfl (by rfl)).1,
    (C3_fault_asymmetry _ ⟨.USER, .HIGH, .FARMER, "hello"⟩ 999999 _ _
      "Expecting property name" "Expecting property name"
      (by decide) rfl (by rfl) rfl (by rfl)).2⟩

/-! ## C4 -/

/-- Bool ite collapse used by the grace-period proofs. -/
theorem ite_true_false (b : Bool) : (if b = true then true else false) = b := by
  cases b <;> rfl

set_option maxRecDepth 8192 in
/-- C4 counterexample: the claim restricts the grace-period suppression
to the HARVESTER service, but the code checks the service name only for
the offline-harvester message; a FARMER-service keepalive confirmation
inside the grace window is also ignored. -/
theorem C4_counterexample :
    ((Notifier.init "T" {} 1000).should_ignore_event
        ⟨.KEEPALIVE, .HIGH, .FARMER, "Cha-ching! Added coin."⟩ 1100 = true)
  ∧ EventService.FARMER ≠ EventService.HARVESTER := by decide

set_option maxRecDepth 8192 in
/-- C4 amended: with no ignore spec configured, `should_ignore_event` is
true exactly when the current time is within 30 minutes of launch AND the
event is a known-spurious restart message, where only the
offline-harvester message additionally requires the HARVESTER service
(the networking-issues and keepalive messages match for any service); in
particular the offline-harvester HARVESTER event is ignored at
launch+100s and not at launch+1900s. -/
theorem C4_grace_period (tp : String) (cfg : NotifierConfig)
    (launch now : Nat) (ev : Event) (hig : cfg.ignore = none) :
    ((Notifier.init tp cfg launch).should_ignore_event ev now
      = (decide (now ≤ launch + 30 * 60) &&
          ((decide (ev.service = .HARVESTER) &&
              pyStartsWith ev.message "Your harvester appears to be offline!")
            || pyStartsWith ev.message "Experiencing networking issues?"
            || pyStartsWith ev.message "Cha-ching!")))
  ∧ ((Notifier.init tp cfg launch).should_ignore_event
        ⟨ev.type, ev.priority, .HARVESTER, "Your harvester appears to be offline!"⟩
        (launch + 100) = true)
  ∧ ((Notifier.init tp cfg launch).should_ignore_event
        ⟨ev.type, ev.priority, .HARVESTER, "Your harvester appears to be offline!"⟩
        (launch + 1900) = false) := by
  have main : ∀ (e : Event) (nw : Nat),
      (Notifier.init tp cfg launch).should_ignore_event e nw
        = (decide (nw ≤ launch + 30 * 60) &&
            ((decide (e.service = .HARVESTER) &&
                pyStartsWith e.message "Your harvester appears to be offline!")
              || pyStartsWith e.message "Experiencing networking issues?"
              || pyStartsWith e.message "Cha-ching!")) := by
    intro e nw
    unfold Notifier.should_ignore_event
    rw [Notifier.init_launch, Notifier.init_config, hig]
    have hgc : graceCondition launch e nw
        = (decide (nw ≤ launch + 30 * 60) &&
            ((decide (e.service = .HARVESTER) &&
                pyStartsWith e.message "Your harvester appears to be offline!")
              || pyStartsWith e.message "Experiencing networking issues?"
              || pyStartsWith e.message "Cha-ching!")) := by
      unfold graceCondition MINIMUM_LAUNCH_SECONDS_BEFORE_ALERTING_ABOUT_BEING_OFFLINE
      rw [EventService.name_harvester]
    rw [hgc, ite_true_false]
  refine ⟨main ev now, ?_, ?_⟩
  · rw [main]
    have h1 : decide (launch + 100 ≤ launch + 30 * 60) = true := by simp
    rw [h1]
    rfl
  · rw [main]
    have h2 : decide (launch + 1900 ≤ launch + 30 * 60) = false := by simp
    rw [h2]
    rfl

/-- C4 amended, witnessed at concrete inputs. -/
theorem C4_grace_period_witness :
    NotifierConfig.ignore {} = none
  ∧ ((Notifier.init "T" {} 50).should_ignore_event
        ⟨.USER, .HIGH, .HARVESTER, "Your harvester appears to be offline!"⟩
        (50 + 100) = true)
  ∧ ((Notifier.init "T" {} 50).should_ignore_event
        ⟨.USER, .HIGH, .HARVESTER, "Your harvester appears to be offline!"⟩
        (50 + 1900) = false) :=
  ⟨rfl,
    (C4_grace_period "T" {} 50 0 ⟨.USER, .HIGH, .HARVESTER, ""⟩ rfl).2.1,
    (C4_grace_period "T" {} 50 0 ⟨.USER, .HIGH, .HARVESTER, ""⟩ rfl).2.2⟩

/-! ## C5 -/

/-- C5: the endpoint is supposed to answer 400 to every malformed
request, but only the content-type and missing-field checks do; an
unparsable JSON body and an enum value outside its enumeration both
raise (`json.loads` / `EventType[...]`), and the exception escapes
`do_POST` — the fault reaches `http.server` instead of producing a 400.
The first two conjuncts evaluate the code at such failing inputs; the
last two show the cases the code does handle with a 400 and no event. -/
theorem C5_endpoint_validation :
    (do_POST (some "application/json")
        "\x7b\"type\":\"bogus\",\"priority\":\"high\",\"service\":\"farmer\",\"message\":\"hi\"\x7d"
      = .error "KeyError: not an EventType member")
  ∧ (do_POST (some "application/json") "not json" = .error "Expecting value")
  ∧ (do_POST (some "text/plain") "\x7b\x7d" = .ok ⟨400, none, []⟩)
  ∧ (do_POST (some "application/json")
        "\x7b\"type\":\"user\",\"priority\":\"high\",\"service\":\"farmer\"\x7d"
      = .ok ⟨400, none, []⟩) :=
  ⟨rfl, rfl, rfl, rfl⟩

/-! ## C6 -/

/-- C6: coin-amount scaling — whenever the wallet regex finds one
coin-received match with timestamp text `ts` (containing a digit) and a
nonempty digit amount `ds`, `parse` returns exactly one record whose
amount is the base amount times the spec's per-prefix multiplier
(chives ×10000, cryptodoge ×1000000, shibgreen/littlelambocoin
×1000000000, stai ×1000, anything else ×1). -/
theorem C6_coin_scaling (pfx logs ts ds : String)
    (hfind : findall (walletCoinRegex pfx) logs = [(ts, ds)])
    (hds : ds.data.all isDig = true) (hne : ds ≠ "")
    (hts : ts.data.any isDig = true) :
    WalletAddedCoinParser.parse pfx logs
      = .ok [⟨ts, digitsVal ds.data * multiplierTable pfx⟩] := by
  unfold WalletAddedCoinParser.parse
  rw [hfind]
  unfold walletParseLoop
  have hint : pyInt ds = .ok (digitsVal ds.data) := by
    unfold pyInt
    rw [if_pos ⟨hds, hne⟩]
  rw [hint]
  have hdu : dateutil_parse ts = .ok ts := by
    unfold dateutil_parse
    rw [if_pos hts]
  rw [hdu]
  unfold multiplierTable
  split_ifs <;> simp [walletParseLoop, Nat.mul_comm]

/-- C6 witnessed on a concrete chives coin line with base amount 25. -/
theorem C6_coin_scaling_witness :
    (findall (walletCoinRegex "chives")
        "1T2:3 wallet chives.wallet.wallet_node INFO request coin: amount: 25"
      = [("1T2:3", "25")])
  ∧ (WalletAddedCoinParser.parse "chives"
        "1T2:3 wallet chives.wallet.wallet_node INFO request coin: amount: 25"
      = .ok [⟨"1T2:3", 250000⟩]) :=
  ⟨by rfl,
    C6_coin_scaling "chives"
      "1T2:3 wallet chives.wallet.wallet_node INFO request coin: amount: 25"
      "1T2:3" "25" (by rfl) (by rfl) (by decide) (by rfl)⟩

/-! ## C7 -/

/-- C7 counterexample: the claim says `parse` never raises, but a line
that the regex matches with an empty amount group makes the code call
`int('')`, which raises `ValueError`. -/
theorem C7_counterexample :
    WalletAddedCoinParser.parse "chia"
        "1T2:3 wallet src.wallet.wallet_node INFO Adding coin: amount: x"
      = .error "ValueError: invalid literal for int" := by rfl

/-- C7 amended: `parse` returns a (possibly empty) list without raising
on every input whose regex matches all carry a nonempty digit amount and
a digit-containing timestamp — in particular it returns `[]` on any
input with no match; it can raise only through a matched record with an
empty amount group (`int('')`) or an unparsable timestamp. -/
theorem C7_parse_totality (pfx logs : String)
    (h : ∀ p ∈ findall (walletCoinRegex pfx) logs,
        p.2.data.all isDig = true ∧ p.2 ≠ "" ∧ p.1.data.any isDig = true) :
    ∃ msgs, WalletAddedCoinParser.parse pfx logs = .ok msgs := by
  unfold WalletAddedCoinParser.parse
  revert h
  generalize findall (walletCoinRegex pfx) logs = ms
  intro h
  induction ms with
  | nil => exact ⟨[], rfl⟩
  | cons hd tl ih =>
    obtain ⟨ha, hb, hc⟩ := h hd (by simp)
    obtain ⟨tailMsgs, htail⟩ := ih (fun p hp => h p (by simp [hp]))
    obtain ⟨ts, amt⟩ := hd
    have hint : pyInt amt = .ok (digitsVal amt.data) := by
      unfold pyInt
      exact if_pos ⟨ha, hb⟩
    have hdu : dateutil_parse ts = .ok ts := by
      unfold dateutil_parse
      exact if_pos hc
    unfold walletParseLoop
    simp only [hint, hdu, htail]
    exact ⟨_, rfl⟩

/-- C7 amended, witnessed on a no-match input. -/
theorem C7_parse_totality_witness :
    (∀ p ∈ findall (walletCoinRegex "chia") "no coins here",
        p.2.data.all isDig = true ∧ p.2 ≠ "" ∧ p.1.data.any isDig = true)
  ∧ ∃ msgs, WalletAddedCoinParser.parse "chia" "no coins here" = .ok msgs :=
  ⟨by decide, C7_parse_totality "chia" "no coins here" (by decide)⟩

/-! ## C8 -/

/-- C8: successful ingestion — the canonical valid POST gets 200 with
the confirmation text and dispatches exactly one Event with the
case-insensitively matched enum fields; and in general every `do_POST`
that completes with a 200 dispatches exactly one Event. -/
theorem C8_successful_ingestion :
    (do_POST (some "application/json")
        "\x7b\"type\":\"user\",\"priority\":\"high\",\"service\":\"farmer\",\"message\":\"hello\"\x7d"
      = .ok ⟨200, some "Event received and notifications sent.",
            [⟨.USER, .HIGH, .FARMER, "hello"⟩]⟩)
  ∧ (∀ (ct : Option String) (body : String) (r : PostResponse),
      do_POST ct body = .ok r → r.status = 200 → r.events.length = 1) := by
  constructor
  · rfl
  · intro ct body r hok h200
    unfold do_POST at hok
    repeat' split at hok
    all_goals first
      | exact Except.noConfusion hok
      | (injection hok with h2; rw [← h2] at h200 ⊢; simp_all)

/-- C8 witnessed: the general one-event-per-success consequence applied
at the canonical valid POST. -/
theorem C8_successful_ingestion_witness :
    (do_POST (some "application/json")
        "\x7b\"type\":\"user\",\"priority\":\"high\",\"service\":\"farmer\",\"message\":\"hello\"\x7d"
      = .ok ⟨200, some "Event received and notifications sent.",
            [⟨.USER, .HIGH, .FARMER, "hello"⟩]⟩)
  ∧ (⟨200, some "Event received and notifications sent.",
        [⟨.USER, .HIGH, .FARMER, "hello"⟩]⟩ : PostResponse).events.length = 1 :=
  ⟨C8_successful_ingestion.1,
    C8_successful_ingestion.2 (some "application/json")
      "\x7b\"type\":\"user\",\"priority\":\"high\",\"service\":\"farmer\",\"message\":\"hello\"\x7d"
      ⟨200, some "Event received and notifications sent.",
        [⟨.USER, .HIGH, .FARMER, "hello"⟩]⟩
      C8_successful_ingestion.1 rfl⟩

/-! ## C9 -/

/-- Folding the checker list over one record appends exactly the
checkers' emitted events in registration order. -/
theorem checker_foldl_eq {α : Type} (m : α) (cs : List (α → Option Event))
    (acc : List Event) :
    cs.foldl (fun acc2 c =>
        match c m with
        | some e => acc2 ++ [e]
        | none => acc2) acc
      = acc ++ cs.filterMap (fun c => c m) := by
  induction cs generalizing acc with
  | nil => simp
  | cons c cs ih =>
    cases hc : c m <;> simp [List.filterMap_cons, hc, ih]

/-- Folding an append-producing step accumulates the per-element lists
in element order. -/
theorem foldl_append_flatMap {α β : Type} (f : α → List β) (msgs : List α)
    (acc : List β) :
    msgs.foldl (fun a m => a ++ f m) acc = acc ++ msgs.flatMap f := by
  induction msgs generalizing acc with
  | nil => simp
  | cons m msgs ih => simp [ih]

/-- Folding the record list accumulates the per-record event lists in
record order. -/
theorem record_foldl_eq {α : Type} (cs : List (α → Option Event))
    (msgs : List α) (acc : List Event) :
    msgs.foldl (fun acc m =>
        cs.foldl (fun acc2 c =>
          match c m with
          | some e => acc2 ++ [e]
          | none => acc2) acc) acc
      = acc ++ msgs.flatMap (fun m => cs.filterMap (fun c => c m)) := by
  simp only [checker_foldl_eq]
  exact foldl_append_flatMap _ msgs acc

/-- C9: `handle` parses once and fans out — the returned events are
exactly the events emitted by running every registered checker on every
parsed record, ordered record-major then checker-registration; when a
stats manager is supplied it receives all parsed records, and the events
are the same with or without one (aggregation independent of condition
results). -/
theorem C9_handler_fanout {α : Type} (p : String → List α)
    (cs : List (α → Option Event)) (logs : String) :
    (PartialHandler.handle p cs logs true
        = ((p logs).flatMap (fun m => cs.filterMap (fun c => c m)), p logs))
  ∧ (PartialHandler.handle p cs logs false
        = ((p logs).flatMap (fun m => cs.filterMap (fun c => c m)), [])) := by
  unfold PartialHandler.handle
  constructor <;> simp [record_foldl_eq]

/-! ## C10 -/

/-- C10: baseline subscription invariant — every constructed Notifier
subscribes to the USER type and the HARVESTER/FARMER/FULL_NODE services,
and the four feature flags only append their respective members
(DAILY_STATS+DAILY, WALLET, PLOTDECREASE, PLOTINCREASE), never removing
a baseline one. -/
theorem C10_baseline_subscriptions (tp : String) (cfg : NotifierConfig)
    (now : Nat) :
    (EventType.USER ∈ (Notifier.init tp cfg now).notification_types
      ∧ EventService.HARVESTER ∈ (Notifier.init tp cfg now).notification_services
      ∧ EventService.FARMER ∈ (Notifier.init tp cfg now).notification_services
      ∧ EventService.FULL_NODE ∈ (Notifier.init tp cfg now).notification_services)
  ∧ ((Notifier.init tp cfg now).notification_types
      = [EventType.USER]
        ++ (if cfg.daily_stats then [EventType.DAILY_STATS] else [])
        ++ (if cfg.decreasing_plot_events then [EventType.PLOTDECREASE] else [])
        ++ (if cfg.increasing_plot_events then [EventType.PLOTINCREASE] else []))
  ∧ ((Notifier.init tp cfg now).notification_services
      = [EventService.HARVESTER, EventService.FARMER, EventService.FULL_NODE]
        ++ (if cfg.daily_stats then [EventService.DAILY] else [])
        ++ (if cfg.wallet_events then [EventService.WALLET] else [])) := by
  obtain ⟨ds, we, de, ie, ig, al⟩ := cfg
  cases ds <;> cases we <;> cases de <;> cases ie <;>
    simp [Notifier.init]

end Chiadog
